import Mathlib

/-!
Verification of the MarfedKV backing-store layer
(src/src/clarity_vm/database/marf.rs).

The file embeds the store layer shallowly: the wrapper logic of marf.rs is
translated function by function, while its external collaborators (the MARF
trie, the sqlite side store, hash constructors) are modelled from the spec,
each such definition marked by a doc comment starting with
`Modelled from the spec:`.
-/

set_option autoImplicit false

namespace ClarityMarf

/-- Modelled from the spec: BlockId is a 32-byte content identifier; the model
represents the 32 bytes as a natural number below 2 ^ 256. -/
structure StacksBlockId where
  id : Nat
deriving DecidableEq, Repr

/-- Modelled from the spec: BlockHeaderHash wraps the same 32 bytes as a
StacksBlockId, used in the structured error payload. -/
structure BlockHeaderHash where
  id : Nat
deriving DecidableEq, Repr

/-- Modelled from the spec: the ValueHash, a content hash of a Value. The
design assumes collision freedom (the trie never stores raw values, only
hashes, and the side store resolves a hash back to a unique value), so the
model represents the hash injectively by the hashed content itself. -/
structure MARFValue where
  data : String
deriving DecidableEq, Repr

/-- Modelled from the spec: MARFValue.from_value computes the content hash of
a value. -/
def MARFValue.from_value (value : String) : MARFValue := ⟨value⟩

/-- Modelled from the spec: MARFValue.to_hex renders the hash as the hex
string used as the side-store key; injective, like hex encoding. -/
def MARFValue.to_hex (m : MARFValue) : String := m.data

/-- Modelled from the spec: errors reported by the external trie handle.
NotFoundError covers unknown blocks and absent keys; NonMatchingForks reports
an unrelated fork (carrying the two raw 32-byte hashes); CorruptionError
stands for every other trie failure. -/
inductive MarfError where
  | NotFoundError : MarfError
  | NonMatchingForks : Nat → Nat → MarfError
  | CorruptionError : MarfError
deriving DecidableEq, Repr

/-- The structured runtime error surfaced by set_block_hash in marf.rs. -/
inductive RuntimeErrorType where
  | UnknownBlockHeaderHash : BlockHeaderHash → RuntimeErrorType
deriving DecidableEq, Repr

/-- The error cases of InterpreterError that marf.rs constructs or propagates
in setup_db and open. -/
inductive InterpreterError where
  | FailedToCreateDataDirectory : InterpreterError
  | BadFileName : InterpreterError
  | MarfFailure : MarfError → InterpreterError
  | DBError : MarfError → InterpreterError
  | SqliteError : InterpreterError
  | InitializeConnFailure : InterpreterError
deriving DecidableEq, Repr

/-- Outcome of an operation that may abort the process: `ok` is a normal
return, `fatal` models a Rust panic with its message. -/
inductive MaybeFatal (α : Type) where
  | ok : α → MaybeFatal α
  | fatal : String → MaybeFatal α
deriving DecidableEq, Repr

/-- Decidable test distinguishing a panic from a normal return. -/
def MaybeFatal.isFatal {α : Type} : MaybeFatal α → Bool
  | .ok _ => false
  | .fatal _ => true

/-- First-match lookup in an association list, by decidable equality. -/
def alookup {α β : Type} [DecidableEq α] (k : α) : List (α × β) → Option β
  | [] => none
  | (a, b) :: rest => if a = k then some b else alookup k rest

/-- Modelled from the spec: the side store maps hash-hex keys to serialized
values; a put prepends, so the most recent write for a key wins. -/
abbrev SideStore := List (String × String)

namespace SqliteConnection

/-- Modelled from the spec: side-store put of (hash-hex -> value). -/
def put (conn : SideStore) (key value : String) : SideStore :=
  (key, value) :: conn

/-- Modelled from the spec: side-store get by hash-hex key. -/
def get (conn : SideStore) (key : String) : Option String :=
  alookup key conn

end SqliteConnection

instance {ε α : Type} [DecidableEq ε] [DecidableEq α] : DecidableEq (Except ε α) :=
  fun x y =>
    match x, y with
    | .ok a, .ok b =>
      if h : a = b then .isTrue (by rw [h]) else .isFalse (by simp [h])
    | .error a, .error b =>
      if h : a = b then .isTrue (by rw [h]) else .isFalse (by simp [h])
    | .ok _, .error _ => .isFalse (by simp)
    | .error _, .ok _ => .isFalse (by simp)

/-- Modelled from the spec: the external versioned trie handle together with
the sqlite database it owns. `tries` holds, per committed BlockId, the
cumulative key-to-ValueHash view at that tip; `checkFail` records the
candidates for which the ancestor check fails, with the error the trie
reports; `heightOf` records the result of the height query at a tip (absent
means Ok none); `sideStore` and `metadata` are the side-store tables. -/
structure MARF where
  tries : List (StacksBlockId × List (String × MARFValue))
  checkFail : List (StacksBlockId × MarfError)
  heightOf : List (StacksBlockId × Except MarfError (Option Nat))
  sideStore : SideStore
  metadata : List (StacksBlockId × String)
deriving DecidableEq, Repr

/-- Modelled from the spec: trie point lookup. An unknown tip yields
Err(NotFoundError); at a known tip an absent key yields Ok(None). -/
def MARF.get (m : MARF) (tip : StacksBlockId) (key : String) :
    Except MarfError (Option MARFValue) :=
  match alookup tip m.tries with
  | none => .error .NotFoundError
  | some view => .ok (alookup key view)

/-- Modelled from the spec: the ancestor/fork validation for a candidate tip;
none means the check passes. -/
def MARF.check_ancestor_block_hash (m : MARF) (bhh : StacksBlockId) :
    Option MarfError :=
  alookup bhh m.checkFail

/-- Modelled from the spec: get_block_height_of, queried at the current tip
against itself; a tip with no recorded answer reports Ok none. -/
def MARF.get_block_height_of (m : MARF) (tip _ref : StacksBlockId) :
    Except MarfError (Option Nat) :=
  (alookup tip m.heightOf).getD (.ok none)

/-- Modelled from the spec: applying a staged batch to a base view, one
insertion at a time in batch order; a later insertion for a key shadows an
earlier one. -/
def applyStaged (base : List (String × MARFValue))
    (staged : List (String × MARFValue)) : List (String × MARFValue) :=
  staged.foldl (fun acc kv => kv :: acc) base

/-- Modelled from the spec: an open trie transaction: the underlying storage,
the provisional identifier of the block being built, the inherited view at
the opened block, and the staged insertions in insertion order. -/
structure MarfTransaction where
  storage : MARF
  openTip : StacksBlockId
  base : List (String × MARFValue)
  staged : List (String × MARFValue)
deriving DecidableEq, Repr

/-- Modelled from the spec: lookup through an open transaction: at the
provisional tip the staged batch applied to the base view is visible,
elsewhere the committed storage answers. -/
def MarfTransaction.get (tx : MarfTransaction) (tip : StacksBlockId)
    (key : String) : Except MarfError (Option MARFValue) :=
  if tip = tx.openTip then .ok (alookup key (applyStaged tx.base tx.staged))
  else tx.storage.get tip key

/-- Modelled from the spec: insert_batch stages the paired keys and value
hashes at the end of the staged batch, in input order. -/
def MarfTransaction.insert_batch (tx : MarfTransaction) (keys : List String)
    (values : List MARFValue) : MarfTransaction :=
  { tx with staged := tx.staged ++ List.zip keys values }

/-- Modelled from the spec: get_block_height_of on a transaction delegates to
the underlying storage. -/
def MarfTransaction.get_block_height_of (tx : MarfTransaction)
    (tip ref : StacksBlockId) : Except MarfError (Option Nat) :=
  tx.storage.get_block_height_of tip ref

/-- Modelled from the spec: StacksBlockId.sentinel, the all-sentinel block
id (every byte 0xff), used as the default chain tip of a fresh handle. -/
def StacksBlockId.sentinel : StacksBlockId := ⟨2 ^ 256 - 1⟩

/-- Modelled from the spec: the first-ever index block hash, produced by
StacksBlockHeader.make_index_block_hash from the first burnchain consensus
hash and the first Stacks block hash. It is a SHA512-256 output, modelled as
a fixed id distinct from the all-zero id and the sentinel. -/
def firstEverIndexBlockHash : StacksBlockId := ⟨1⟩

/-- The all-zero StacksBlockId compared against in get_current_block_height. -/
def zeroBlockId : StacksBlockId := ⟨0⟩

/-- The panic message of the GET expect in marf.rs. -/
def getFailureMsg : String := "ERROR: Unexpected MARF Failure on GET"

/-- The panic message when the trie holds a hash the side store lacks. -/
def sideStoreMissingMsg (side_key : String) : String :=
  "ERROR: MARF contained value_hash not found in side storage: " ++ side_key

/-- The read-only view over the MARF: a chain tip and the storage. -/
structure ReadOnlyMarfStore where
  chain_tip : StacksBlockId
  marf : MARF
deriving DecidableEq, Repr

/-- The writable view over the MARF: a chain tip and an open transaction. -/
structure WritableMarfStore where
  chain_tip : StacksBlockId
  marf : MarfTransaction
deriving DecidableEq, Repr

/-- Translation of ReadOnlyMarfStore::set_block_hash: validate the candidate
through the ancestor check; NotFoundError and NonMatchingForks both become
the structured UnknownBlockHeaderHash runtime error, any other trie failure
panics; on success the tip is swapped and the previous tip returned. -/
def ReadOnlyMarfStore.set_block_hash (s : ReadOnlyMarfStore)
    (bhh : StacksBlockId) :
    MaybeFatal (Except RuntimeErrorType StacksBlockId) × ReadOnlyMarfStore :=
  match s.marf.check_ancestor_block_hash bhh with
  | some .NotFoundError =>
    (.ok (.error (.UnknownBlockHeaderHash ⟨bhh.id⟩)), s)
  | some (.NonMatchingForks _ _) =>
    (.ok (.error (.UnknownBlockHeaderHash ⟨bhh.id⟩)), s)
  | some _ => (.fatal "ERROR: Unexpected MARF failure", s)
  | none => (.ok (.ok s.chain_tip), { s with chain_tip := bhh })

/-- Translation of WritableMarfStore::set_block_hash, identical in shape to
the read-only version but running on the open transaction. -/
def WritableMarfStore.set_block_hash (s : WritableMarfStore)
    (bhh : StacksBlockId) :
    MaybeFatal (Except RuntimeErrorType StacksBlockId) × WritableMarfStore :=
  match s.marf.storage.check_ancestor_block_hash bhh with
  | some .NotFoundError =>
    (.ok (.error (.UnknownBlockHeaderHash ⟨bhh.id⟩)), s)
  | some (.NonMatchingForks _ _) =>
    (.ok (.error (.UnknownBlockHeaderHash ⟨bhh.id⟩)), s)
  | some _ => (.fatal "ERROR: Unexpected MARF failure", s)
  | none => (.ok (.ok s.chain_tip), { s with chain_tip := bhh })

/-- Translation of ReadOnlyMarfStore::get: a NotFoundError from the trie is
turned into None, any other trie error panics; a found ValueHash is resolved
through the side store, and a missing side-store row panics. -/
def ReadOnlyMarfStore.get (s : ReadOnlyMarfStore) (key : String) :
    MaybeFatal (Option String) :=
  match s.marf.get s.chain_tip key with
  | .error .NotFoundError => .ok none
  | .error _ => .fatal getFailureMsg
  | .ok none => .ok none
  | .ok (some marf_value) =>
    match SqliteConnection.get s.marf.sideStore marf_value.to_hex with
    | some data => .ok (some data)
    | none => .fatal (sideStoreMissingMsg marf_value.to_hex)

/-- Translation of WritableMarfStore::get, the same flow through the open
transaction, with the side store read through the sqlite transaction. -/
def WritableMarfStore.get (s : WritableMarfStore) (key : String) :
    MaybeFatal (Option String) :=
  match s.marf.get s.chain_tip key with
  | .error .NotFoundError => .ok none
  | .error _ => .fatal getFailureMsg
  | .ok none => .ok none
  | .ok (some marf_value) =>
    match SqliteConnection.get s.marf.storage.sideStore marf_value.to_hex with
    | some data => .ok (some data)
    | none => .fatal (sideStoreMissingMsg marf_value.to_hex)

/-- Translation of ReadOnlyMarfStore::put_all: unconditional panic, the state
is returned untouched. -/
def ReadOnlyMarfStore.put_all (s : ReadOnlyMarfStore)
    (_items : List (String × String)) :
    MaybeFatal Unit × ReadOnlyMarfStore :=
  (.fatal "BUG: attempted commit to read-only MARF", s)

/-- Translation of the loop in WritableMarfStore::put_all: for each pair in
input order, hash the value, put (hash-hex -> value) into the side store, and
push the key and the hash onto the batch vectors. -/
def put_all_loop : List (String × String) → List String → List MARFValue →
    SideStore → List String × List MARFValue × SideStore
  | [], keys, values, side => (keys, values, side)
  | (key, value) :: rest, keys, values, side =>
    let marf_value := MARFValue.from_value value
    put_all_loop rest (keys ++ [key]) (values ++ [marf_value])
      (SqliteConnection.put side marf_value.to_hex value)

/-- Translation of WritableMarfStore::put_all: run the loop over the items,
then stage the collected keys and hashes into the trie transaction as one
batch insert. -/
def WritableMarfStore.put_all (s : WritableMarfStore)
    (items : List (String × String)) : WritableMarfStore :=
  match put_all_loop items [] [] s.marf.storage.sideStore with
  | (keys, values, side) =>
    { s with marf :=
        ({ s.marf with storage := { s.marf.storage with sideStore := side } }
          ).insert_batch keys values }

/-- Events emitted by the commit path, used to state the ordering of the
side-store metadata rename and the trie finalization. -/
inductive CommitEvent where
  | metadataRename : StacksBlockId → StacksBlockId → CommitEvent
  | trieCommit : StacksBlockId → CommitEvent
deriving DecidableEq, Repr

/-- Modelled from the spec: SqliteConnection::commit_metadata_to renames the
metadata rows keyed by the provisional tip to the final tip; it emits the
rename event. -/
def SqliteConnection.commit_metadata_to (db : MARF) (old_tip new_tip : StacksBlockId) :
    MARF × List CommitEvent :=
  ({ db with metadata :=
      db.metadata.map (fun r => if r.1 = old_tip then (new_tip, r.2) else r) },
    [.metadataRename old_tip new_tip])

/-- Modelled from the spec: MarfTransaction::commit_to finalizes the open
transaction, publishing the staged view under the final identifier; it emits
the trie-commit event. -/
def MarfTransaction.commit_to (tx : MarfTransaction) (final : StacksBlockId) :
    MARF × List CommitEvent :=
  ({ tx.storage with
      tries := (final, applyStaged tx.base tx.staged) :: tx.storage.tries },
    [.trieCommit final])

/-- Translation of WritableMarfStore::commit_to: first the side-store
metadata rename from the current tip to the final tip, then the trie
finalization; the event trace records the program order. -/
def WritableMarfStore.commit_to (s : WritableMarfStore)
    (final_bhh : StacksBlockId) : MARF × List CommitEvent :=
  match SqliteConnection.commit_metadata_to s.marf.storage s.chain_tip final_bhh with
  | (db1, ev1) =>
    match MarfTransaction.commit_to { s.marf with storage := db1 } final_bhh with
    | (db2, ev2) => (db2, ev1 ++ ev2)

/-- Translation of ReadOnlyMarfStore::get_current_block_height: the reported
height when there is one; 0 when there is none and the tip is the first-ever
index block hash or the all-zero id; a panic for any other tip with no
height, and a panic on a trie error. -/
def ReadOnlyMarfStore.get_current_block_height (s : ReadOnlyMarfStore) :
    MaybeFatal Nat :=
  match s.marf.get_block_height_of s.chain_tip s.chain_tip with
  | .ok (some x) => .ok x
  | .ok none =>
    if s.chain_tip = firstEverIndexBlockHash ∨ s.chain_tip = zeroBlockId then
      .ok 0
    else
      .fatal "Failed to obtain current block height (got None)"
  | .error _ =>
    .fatal "Unexpected MARF failure: Failed to get current block height"

/-- Translation of WritableMarfStore::get_current_block_height, the same
logic through the open transaction. -/
def WritableMarfStore.get_current_block_height (s : WritableMarfStore) :
    MaybeFatal Nat :=
  match s.marf.get_block_height_of s.chain_tip s.chain_tip with
  | .ok (some x) => .ok x
  | .ok none =>
    if s.chain_tip = firstEverIndexBlockHash ∨ s.chain_tip = zeroBlockId then
      .ok 0
    else
      .fatal "Failed to obtain current block height (got None)"
  | .error _ =>
    .fatal "Unexpected MARF failure: Failed to get current block height"

/-- Events emitted by setup_db, used to state that schema initialization runs
inside a storage transaction. -/
inductive SetupEvent where
  | storageTxBegin : SetupEvent
  | initializeSchema : SetupEvent
  | storageTxCommit : SetupEvent
deriving DecidableEq, Repr

/-- Modelled from the spec: the outcomes of the external steps taken by
setup_db at a given path: directory creation, path-to-string conversion,
opening the trie (confirmed or unconfirmed region), the side-store schema
check, opening a storage transaction, schema initialization, and the
transaction commit. -/
structure DbEnv where
  createDirOk : Bool
  pathOk : Bool
  fromPathResult : Except MarfError MARF
  fromPathUnconfirmedResult : Except MarfError MARF
  checkSchemaOk : Bool
  storageTxResult : Except MarfError Unit
  initializeConnResult : Option InterpreterError
  txCommitOk : Bool
deriving Repr

/-- Translation of MarfedKV::setup_db: each fallible step either continues or
propagates a structured InterpreterError with the question-mark operator; no
step panics. When the schema check succeeds the marf is returned as is;
otherwise a storage transaction is opened, the schema initialized inside it,
and the transaction committed, the event trace recording the order. -/
def MarfedKV.setup_db (env : DbEnv) (unconfirmed : Bool) :
    MaybeFatal (Except InterpreterError MARF) × List SetupEvent :=
  if env.createDirOk = false then
    (.ok (.error .FailedToCreateDataDirectory), [])
  else if env.pathOk = false then
    (.ok (.error .BadFileName), [])
  else
    match (if unconfirmed then env.fromPathUnconfirmedResult
           else env.fromPathResult) with
    | .error e => (.ok (.error (.MarfFailure e)), [])
    | .ok marf =>
      if env.checkSchemaOk then
        (.ok (.ok marf), [])
      else
        match env.storageTxResult with
        | .error e => (.ok (.error (.DBError e)), [])
        | .ok _ =>
          match env.initializeConnResult with
          | some e =>
            (.ok (.error e), [.storageTxBegin, .initializeSchema])
          | none =>
            if env.txCommitOk then
              (.ok (.ok marf),
                [.storageTxBegin, .initializeSchema, .storageTxCommit])
            else
              (.ok (.error .SqliteError),
                [.storageTxBegin, .initializeSchema])

/-- The store handle: the handle-level chain tip bookmark and the trie. -/
structure MarfedKV where
  chain_tip : StacksBlockId
  marf : MARF
deriving Repr

/-- Translation of MarfedKV::open (named open in the source): set up the
database, then bookmark the supplied miner tip, or the sentinel when none is
given. -/
def MarfedKV.openStore (env : DbEnv) (miner_tip : Option StacksBlockId) :
    MaybeFatal (Except InterpreterError MarfedKV) :=
  match MarfedKV.setup_db env false with
  | (.fatal msg, _) => .fatal msg
  | (.ok (.error e), _) => .ok (.error e)
  | (.ok (.ok marf), _) =>
    let chain_tip := match miner_tip with
      | some t => t
      | none => StacksBlockId.sentinel
    .ok (.ok { chain_tip := chain_tip, marf := marf })

/-- Translation of MarfedKV::open_unconfirmed, identical except for the
unconfirmed flag passed to setup_db. -/
def MarfedKV.open_unconfirmed (env : DbEnv) (miner_tip : Option StacksBlockId) :
    MaybeFatal (Except InterpreterError MarfedKV) :=
  match MarfedKV.setup_db env true with
  | (.fatal msg, _) => .fatal msg
  | (.ok (.error e), _) => .ok (.error e)
  | (.ok (.ok marf), _) =>
    let chain_tip := match miner_tip with
      | some t => t
      | none => StacksBlockId.sentinel
    .ok (.ok { chain_tip := chain_tip, marf := marf })

/-- Translation of MarfedKV::get_chain_tip. -/
def MarfedKV.get_chain_tip (kv : MarfedKV) : StacksBlockId :=
  kv.chain_tip

/-- Translation of MarfedKV::set_chain_tip. -/
def MarfedKV.set_chain_tip (kv : MarfedKV) (bhh : StacksBlockId) : MarfedKV :=
  { kv with chain_tip := bhh }

/-- The last value written for a key in a batch, in input order. -/
def lastValueOf (items : List (String × String)) (k : String) : Option String :=
  alookup k items.reverse

/-- The cumulative effect of the put_all loop on the side store: one put of
(hash-hex -> value) per item, in input order. -/
def putAllSide (items : List (String × String)) (side : SideStore) : SideStore :=
  items.foldl
    (fun sd kv => SqliteConnection.put sd (MARFValue.from_value kv.2).to_hex kv.2)
    side

/-- A MARF with no committed tries, no failures and empty side store, used
as a concrete fixture. -/
def mEmpty : MARF :=
  { tries := [], checkFail := [], heightOf := [], sideStore := [],
    metadata := [] }

/-- A MARF whose ancestor check reports NotFoundError for block 5. -/
def mNotFound : MARF := { mEmpty with checkFail := [(⟨5⟩, .NotFoundError)] }

/-- A MARF whose ancestor check reports NonMatchingForks for block 5. -/
def mForks : MARF :=
  { mEmpty with checkFail := [(⟨5⟩, .NonMatchingForks 1 2)] }

/-- A MARF holding one committed trie entry for key k at block 3, with the
matching side-store row. -/
def mWithRow : MARF :=
  { mEmpty with tries := [(⟨3⟩, [("k", ⟨"v"⟩)])], sideStore := [("v", "v")] }

/-- Like mWithRow but with the side-store row missing. -/
def mMissingRow : MARF := { mEmpty with tries := [(⟨3⟩, [("k", ⟨"v"⟩)])] }

/-- An empty open transaction over a given MARF, with provisional tip 9. -/
def txOver (m : MARF) : MarfTransaction :=
  { storage := m, openTip := ⟨9⟩, base := [], staged := [] }

/-- A concrete writable store over the empty MARF. -/
def wsEx : WritableMarfStore := { chain_tip := ⟨9⟩, marf := txOver mEmpty }

/-- A DbEnv in which every step succeeds and the schema is present. -/
def envOk : DbEnv :=
  { createDirOk := true, pathOk := true, fromPathResult := .ok mEmpty,
    fromPathUnconfirmedResult := .ok mEmpty, checkSchemaOk := true,
    storageTxResult := .ok (), initializeConnResult := none,
    txCommitOk := true }

/-- A DbEnv in which the schema is absent and schema initialization fails. -/
def envInitFail : DbEnv :=
  { envOk with
    checkSchemaOk := false,
    initializeConnResult := some .InitializeConnFailure }

/-- A DbEnv in which the schema is absent and every step succeeds. -/
def envSchemaAbsent : DbEnv := { envOk with checkSchemaOk := false }

/-- A MARF recording a height of 7 for block 4 and a trie error for block 6. -/
def mHeights : MARF :=
  { mEmpty with
    heightOf := [(⟨4⟩, .ok (some 7)), (⟨6⟩, .error .CorruptionError)] }

section Lemmas

variable {α β γ : Type} [DecidableEq α]

theorem alookup_append_some {k : α} {v : β} {a : List (α × β)}
    (b : List (α × β)) (h : alookup k a = some v) :
    alookup k (a ++ b) = some v := by
  induction a with
  | nil => simp [alookup] at h
  | cons hd tl ih =>
    cases hd with
    | mk x y =>
      by_cases hx : x = k
      · simp [alookup, hx] at h ⊢
        exact h
      · simp [alookup, hx] at h ⊢
        exact ih h

theorem alookup_map (k : α) (g : β → γ) (l : List (α × β)) :
    alookup k (l.map (fun kv => (kv.1, g kv.2))) = (alookup k l).map g := by
  induction l with
  | nil => simp [alookup]
  | cons hd tl ih =>
    cases hd with
    | mk x y =>
      by_cases hx : x = k
      · simp [alookup, hx]
      · simp [alookup, hx, ih]

theorem alookup_mem {k : α} {v : β} {l : List (α × β)}
    (h : alookup k l = some v) : (k, v) ∈ l := by
  induction l with
  | nil => simp [alookup] at h
  | cons hd tl ih =>
    cases hd with
    | mk x y =>
      by_cases hx : x = k
      · simp [alookup, hx] at h
        subst hx
        subst h
        exact List.mem_cons_self _ _
      · simp [alookup, hx] at h
        exact List.mem_cons_of_mem _ (ih h)

theorem applyStaged_eq (base staged : List (String × MARFValue)) :
    applyStaged base staged = staged.reverse ++ base := by
  induction staged generalizing base with
  | nil => simp [applyStaged]
  | cons hd tl ih =>
    show applyStaged (hd :: base) tl = (hd :: tl).reverse ++ base
    rw [ih (hd :: base)]
    simp

theorem zip_map_eq (items : List (String × String)) :
    List.zip (items.map Prod.fst)
        (items.map (fun kv => MARFValue.from_value kv.2)) =
      items.map (fun kv => (kv.1, MARFValue.from_value kv.2)) := by
  induction items with
  | nil => rfl
  | cons hd tl ih => simp [ih]

theorem put_all_loop_eq (items : List (String × String)) (keys : List String)
    (values : List MARFValue) (side : SideStore) :
    put_all_loop items keys values side =
      (keys ++ items.map Prod.fst,
       values ++ items.map (fun kv => MARFValue.from_value kv.2),
       putAllSide items side) := by
  induction items generalizing keys values side with
  | nil => simp [put_all_loop, putAllSide]
  | cons hd tl ih =>
    cases hd with
    | mk k v =>
      simp only [put_all_loop, putAllSide, List.foldl_cons, List.map_cons]
      rw [ih]
      simp [putAllSide]

theorem putAllSide_preserve {v : String} {side : SideStore}
    (items : List (String × String))
    (h : alookup v side = some v) :
    alookup v (putAllSide items side) = some v := by
  induction items generalizing side with
  | nil => exact h
  | cons hd tl ih =>
    simp only [putAllSide, List.foldl_cons]
    apply ih
    simp only [SqliteConnection.put, MARFValue.to_hex, MARFValue.from_value,
      alookup]
    by_cases hx : hd.2 = v
    · simp [hx]
    · simp [hx]
      exact h

theorem putAllSide_mem {k v : String} {items : List (String × String)}
    (side : SideStore) (h : (k, v) ∈ items) :
    alookup v (putAllSide items side) = some v := by
  induction items generalizing side with
  | nil => simp at h
  | cons hd tl ih =>
    rcases List.mem_cons.mp h with heq | hmem
    · subst heq
      simp only [putAllSide, List.foldl_cons]
      apply putAllSide_preserve
      simp [SqliteConnection.put, MARFValue.to_hex, MARFValue.from_value,
        alookup]
    · simp only [putAllSide, List.foldl_cons]
      exact ih _ hmem

theorem alookup_applyStaged_last (base staged0 : List (String × MARFValue))
    (items : List (String × String)) (k v : String)
    (h : lastValueOf items k = some v) :
    alookup k (applyStaged base
        (staged0 ++ items.map (fun kv => (kv.1, MARFValue.from_value kv.2)))) =
      some (MARFValue.from_value v) := by
  rw [applyStaged_eq, List.reverse_append]
  have h1 : alookup k
      ((items.map (fun kv => (kv.1, MARFValue.from_value kv.2))).reverse) =
      some (MARFValue.from_value v) := by
    rw [← List.map_reverse, alookup_map]
    unfold lastValueOf at h
    rw [h]
    rfl
  have h2 := alookup_append_some (b := staged0.reverse ++ base) h1
  simpa using h2

theorem put_all_commit_to_storage (ws : WritableMarfStore)
    (items : List (String × String)) (T : StacksBlockId) :
    ((ws.put_all items).commit_to T).1 =
      { tries := (T, applyStaged ws.marf.base (ws.marf.staged ++
            items.map (fun kv => (kv.1, MARFValue.from_value kv.2)))) ::
          ws.marf.storage.tries,
        checkFail := ws.marf.storage.checkFail,
        heightOf := ws.marf.storage.heightOf,
        sideStore := putAllSide items ws.marf.storage.sideStore,
        metadata := ws.marf.storage.metadata.map
          (fun r => if r.1 = ws.chain_tip then (T, r.2) else r) } := by
  simp [WritableMarfStore.put_all, put_all_loop_eq, WritableMarfStore.commit_to,
    SqliteConnection.commit_metadata_to, MarfTransaction.commit_to,
    MarfTransaction.insert_batch, zip_map_eq]

end Lemmas

/-- C4: put_all on a Read View always aborts with the fatal caller-error
panic, for every input batch including the empty one, and leaves the view
(trie and side store) untouched. -/
theorem read_only_put_all_fatal (s : ReadOnlyMarfStore)
    (items : List (String × String)) :
    (s.put_all items).1 = .fatal "BUG: attempted commit to read-only MARF" ∧
    ((s.put_all items).1).isFatal = true ∧
    (s.put_all items).2 = s :=
  ⟨rfl, rfl, rfl⟩

/-- C9: when the ancestor check fails on either view, set_block_hash leaves
the store, and hence its chain tip and every subsequent query, unchanged;
when the check passes, the previous tip is returned and only the tip is
replaced by the new block id. -/
theorem set_block_hash_tip_changes_only_on_success
    (s : ReadOnlyMarfStore) (w : WritableMarfStore) (bhh bhw : StacksBlockId) :
    ((s.marf.check_ancestor_block_hash bhh).isSome = true →
      (s.set_block_hash bhh).2 = s) ∧
    (s.marf.check_ancestor_block_hash bhh = none →
      (s.set_block_hash bhh).1 = .ok (.ok s.chain_tip) ∧
      (s.set_block_hash bhh).2 = { s with chain_tip := bhh }) ∧
    ((w.marf.storage.check_ancestor_block_hash bhw).isSome = true →
      (w.set_block_hash bhw).2 = w) ∧
    (w.marf.storage.check_ancestor_block_hash bhw = none →
      (w.set_block_hash bhw).1 = .ok (.ok w.chain_tip) ∧
      (w.set_block_hash bhw).2 = { w with chain_tip := bhw }) := by
  refine ⟨?_, ?_, ?_, ?_⟩
  · intro h
    unfold ReadOnlyMarfStore.set_block_hash
    rcases he : s.marf.check_ancestor_block_hash bhh with _ | e
    · rw [he] at h
      simp [Option.isSome] at h
    · cases e <;> simp
  · intro h
    unfold ReadOnlyMarfStore.set_block_hash
    rw [h]
    exact ⟨rfl, rfl⟩
  · intro h
    unfold WritableMarfStore.set_block_hash
    rcases he : w.marf.storage.check_ancestor_block_hash bhw with _ | e
    · rw [he] at h
      simp [Option.isSome] at h
    · cases e <;> simp
  · intro h
    unfold WritableMarfStore.set_block_hash
    rw [h]
    exact ⟨rfl, rfl⟩

/-- Witness for C9 at concrete stores: a failing check leaves the store
unchanged and a passing check swaps the tip, returning the old one. -/
theorem set_block_hash_tip_changes_only_on_success_witness :
    (ReadOnlyMarfStore.set_block_hash ⟨⟨7⟩, mNotFound⟩ ⟨5⟩).2 = ⟨⟨7⟩, mNotFound⟩ ∧
    (ReadOnlyMarfStore.set_block_hash ⟨⟨7⟩, mEmpty⟩ ⟨5⟩).1 = .ok (.ok ⟨7⟩) ∧
    (WritableMarfStore.set_block_hash ⟨⟨7⟩, txOver mForks⟩ ⟨5⟩).2 =
      ⟨⟨7⟩, txOver mForks⟩ :=
  ⟨(set_block_hash_tip_changes_only_on_success ⟨⟨7⟩, mNotFound⟩
      ⟨⟨7⟩, txOver mForks⟩ ⟨5⟩ ⟨5⟩).1 (by decide),
   ((set_block_hash_tip_changes_only_on_success ⟨⟨7⟩, mEmpty⟩
      ⟨⟨7⟩, txOver mForks⟩ ⟨5⟩ ⟨5⟩).2.1 (by decide)).1,
   (set_block_hash_tip_changes_only_on_success ⟨⟨7⟩, mNotFound⟩
      ⟨⟨7⟩, txOver mForks⟩ ⟨5⟩ ⟨5⟩).2.2.1 (by decide)⟩

/-- C2 counterexample: the unknown-block case and the non-matching-fork case
of the ancestor check produce the very same structured error value on both
views, so set_block_hash does not distinguish the two failure cases. -/
theorem set_block_hash_errors_not_distinguished :
    MARF.check_ancestor_block_hash mNotFound ⟨5⟩ = some .NotFoundError ∧
    MARF.check_ancestor_block_hash mForks ⟨5⟩ = some (.NonMatchingForks 1 2) ∧
    (ReadOnlyMarfStore.set_block_hash ⟨⟨7⟩, mNotFound⟩ ⟨5⟩).1 =
      (ReadOnlyMarfStore.set_block_hash ⟨⟨7⟩, mForks⟩ ⟨5⟩).1 ∧
    (WritableMarfStore.set_block_hash ⟨⟨7⟩, txOver mNotFound⟩ ⟨5⟩).1 =
      (WritableMarfStore.set_block_hash ⟨⟨7⟩, txOver mForks⟩ ⟨5⟩).1 := by
  decide

/-- C2 (amended): when the ancestor check fails with NotFoundError or with
NonMatchingForks, set_block_hash on either view returns the same structured,
non-fatal UnknownBlockHeaderHash error built from the rejected block id; the
two failure cases are not distinguished in the returned value. -/
theorem set_block_hash_unknown_block_error
    (s : ReadOnlyMarfStore) (w : WritableMarfStore) (bhh bhw : StacksBlockId)
    (e ew : MarfError)
    (hs : s.marf.check_ancestor_block_hash bhh = some e)
    (he : e = .NotFoundError ∨ ∃ a b, e = .NonMatchingForks a b)
    (hw : w.marf.storage.check_ancestor_block_hash bhw = some ew)
    (hew : ew = .NotFoundError ∨ ∃ a b, ew = .NonMatchingForks a b) :
    (s.set_block_hash bhh).1 =
      .ok (.error (.UnknownBlockHeaderHash ⟨bhh.id⟩)) ∧
    ((s.set_block_hash bhh).1).isFatal = false ∧
    (w.set_block_hash bhw).1 =
      .ok (.error (.UnknownBlockHeaderHash ⟨bhw.id⟩)) ∧
    ((w.set_block_hash bhw).1).isFatal = false := by
  have h1 : (s.set_block_hash bhh).1 =
      .ok (.error (.UnknownBlockHeaderHash ⟨bhh.id⟩)) := by
    unfold ReadOnlyMarfStore.set_block_hash
    rw [hs]
    rcases he with h | ⟨a, b, h⟩ <;> subst h <;> rfl
  have h2 : (w.set_block_hash bhw).1 =
      .ok (.error (.UnknownBlockHeaderHash ⟨bhw.id⟩)) := by
    unfold WritableMarfStore.set_block_hash
    rw [hw]
    rcases hew with h | ⟨a, b, h⟩ <;> subst h <;> rfl
  refine ⟨h1, ?_, h2, ?_⟩
  · rw [h1]
    rfl
  · rw [h2]
    rfl

/-- Witness for C2 (amended) at concrete stores, one per failure case. -/
theorem set_block_hash_unknown_block_error_witness :
    (ReadOnlyMarfStore.set_block_hash ⟨⟨7⟩, mNotFound⟩ ⟨5⟩).1 =
      .ok (.error (.UnknownBlockHeaderHash ⟨5⟩)) ∧
    (WritableMarfStore.set_block_hash ⟨⟨7⟩, txOver mForks⟩ ⟨5⟩).1 =
      .ok (.error (.UnknownBlockHeaderHash ⟨5⟩)) :=
  ⟨(set_block_hash_unknown_block_error ⟨⟨7⟩, mNotFound⟩ ⟨⟨7⟩, txOver mForks⟩
      ⟨5⟩ ⟨5⟩ .NotFoundError (.NonMatchingForks 1 2) (by decide)
      (Or.inl rfl) (by decide) (Or.inr ⟨1, 2, rfl⟩)).1,
   (set_block_hash_unknown_block_error ⟨⟨7⟩, mNotFound⟩ ⟨⟨7⟩, txOver mForks⟩
      ⟨5⟩ ⟨5⟩ .NotFoundError (.NonMatchingForks 1 2) (by decide)
      (Or.inl rfl) (by decide) (Or.inr ⟨1, 2, rfl⟩)).2.2.1⟩

/-- C6: commit_to emits the side-store metadata rename from the provisional
tip to the final tip strictly before the trie finalization event. -/
theorem commit_to_metadata_rename_before_trie (s : WritableMarfStore)
    (final_bhh : StacksBlockId) :
    (s.commit_to final_bhh).2 =
      [.metadataRename s.chain_tip final_bhh, .trieCommit final_bhh] ∧
    ∃ i j, i < j ∧
      ((s.commit_to final_bhh).2).get? i =
        some (.metadataRename s.chain_tip final_bhh) ∧
      ((s.commit_to final_bhh).2).get? j = some (.trieCommit final_bhh) := by
  refine ⟨rfl, 0, 1, Nat.zero_lt_one, rfl, rfl⟩

/-- C3: get on either view returns None exactly when the trie has no entry
for the key at the current tip (unknown tip or absent key); a ValueHash found
in the trie is resolved through the side store when a row is present, and a
missing side-store row is a fatal panic, never surfaced as a recoverable
None or error. -/
theorem get_side_store_integrity (s : ReadOnlyMarfStore)
    (w : WritableMarfStore) (k kw : String) :
    (s.marf.get s.chain_tip k = .ok none → s.get k = .ok none) ∧
    (s.marf.get s.chain_tip k = .error .NotFoundError → s.get k = .ok none) ∧
    (∀ mv : MARFValue, s.marf.get s.chain_tip k = .ok (some mv) →
      (∀ v, SqliteConnection.get s.marf.sideStore mv.to_hex = some v →
        s.get k = .ok (some v)) ∧
      (SqliteConnection.get s.marf.sideStore mv.to_hex = none →
        s.get k = .fatal (sideStoreMissingMsg mv.to_hex) ∧
        (s.get k).isFatal = true)) ∧
    (w.marf.get w.chain_tip kw = .ok none → w.get kw = .ok none) ∧
    (w.marf.get w.chain_tip kw = .error .NotFoundError → w.get kw = .ok none) ∧
    (∀ mv : MARFValue, w.marf.get w.chain_tip kw = .ok (some mv) →
      (∀ v, SqliteConnection.get w.marf.storage.sideStore mv.to_hex = some v →
        w.get kw = .ok (some v)) ∧
      (SqliteConnection.get w.marf.storage.sideStore mv.to_hex = none →
        w.get kw = .fatal (sideStoreMissingMsg mv.to_hex) ∧
        (w.get kw).isFatal = true)) := by
  refine ⟨?_, ?_, ?_, ?_, ?_, ?_⟩
  · intro h
    unfold ReadOnlyMarfStore.get
    rw [h]
  · intro h
    unfold ReadOnlyMarfStore.get
    rw [h]
  · intro mv h
    constructor
    · intro v hv
      unfold ReadOnlyMarfStore.get
      rw [h]
      dsimp
      rw [hv]
    · intro hv
      unfold ReadOnlyMarfStore.get
      rw [h]
      dsimp
      rw [hv]
      exact ⟨rfl, rfl⟩
  · intro h
    unfold WritableMarfStore.get
    rw [h]
  · intro h
    unfold WritableMarfStore.get
    rw [h]
  · intro mv h
    constructor
    · intro v hv
      unfold WritableMarfStore.get
      rw [h]
      dsimp
      rw [hv]
    · intro hv
      unfold WritableMarfStore.get
      rw [h]
      dsimp
      rw [hv]
      exact ⟨rfl, rfl⟩

/-- Witness for C3 at concrete stores: a trie hit resolved from the side
store, a trie miss giving None, and a missing side-store row panicking. -/
theorem get_side_store_integrity_witness :
    ReadOnlyMarfStore.get ⟨⟨3⟩, mWithRow⟩ "k" = .ok (some "v") ∧
    ReadOnlyMarfStore.get ⟨⟨3⟩, mWithRow⟩ "absent" = .ok none ∧
    (ReadOnlyMarfStore.get ⟨⟨3⟩, mMissingRow⟩ "k").isFatal = true ∧
    WritableMarfStore.get ⟨⟨3⟩, txOver mWithRow⟩ "k" = .ok (some "v") :=
  ⟨((get_side_store_integrity ⟨⟨3⟩, mWithRow⟩ ⟨⟨3⟩, txOver mWithRow⟩
        "k" "k").2.2.1 ⟨"v"⟩ (by decide)).1 "v" (by decide),
   (get_side_store_integrity ⟨⟨3⟩, mWithRow⟩ ⟨⟨3⟩, txOver mWithRow⟩
        "absent" "k").1 (by decide),
   (((get_side_store_integrity ⟨⟨3⟩, mMissingRow⟩ ⟨⟨3⟩, txOver mWithRow⟩
        "k" "k").2.2.1 ⟨"v"⟩ (by decide)).2 (by decide)).2,
   ((get_side_store_integrity ⟨⟨3⟩, mWithRow⟩ ⟨⟨3⟩, txOver mWithRow⟩
        "k" "k").2.2.2.2.2 ⟨"v"⟩ (by decide)).1 "v" (by decide)⟩

/-- C7 counterexample: with the schema absent and schema initialization
failing, setup_db and open return a structured recoverable error, not a
fatal abort. -/
theorem setup_db_init_failure_not_fatal :
    (MarfedKV.setup_db envInitFail false).1 =
      .ok (.error .InitializeConnFailure) ∧
    ((MarfedKV.setup_db envInitFail false).1).isFatal = false ∧
    (MarfedKV.openStore envInitFail none).isFatal = false := by
  decide

/-- C7 (amended): when the store is opened at a usable path whose side-store
schema is absent, the schema is initialized inside a storage transaction
(begin, initialize, commit, in that order); a failure of the initialization
is propagated as a structured recoverable error, never a fatal abort and
never silently ignored, and open surfaces the same error. -/
theorem setup_db_schema_init (env : DbEnv) (u : Bool) (m : MARF)
    (e : InterpreterError)
    (hdir : env.createDirOk = true) (hpath : env.pathOk = true)
    (hmarf : (if u then env.fromPathUnconfirmedResult
              else env.fromPathResult) = .ok m)
    (hschema : env.checkSchemaOk = false)
    (htx : env.storageTxResult = .ok ()) :
    (env.initializeConnResult = some e →
      (MarfedKV.setup_db env u).1 = .ok (.error e) ∧
      ((MarfedKV.setup_db env u).1).isFatal = false ∧
      (MarfedKV.setup_db env u).2 = [.storageTxBegin, .initializeSchema]) ∧
    (env.initializeConnResult = none → env.txCommitOk = true →
      (MarfedKV.setup_db env u).1 = .ok (.ok m) ∧
      (MarfedKV.setup_db env u).2 =
        [.storageTxBegin, .initializeSchema, .storageTxCommit]) ∧
    (u = false → env.initializeConnResult = some e →
      MarfedKV.openStore env none = .ok (.error e)) := by
  refine ⟨?_, ?_, ?_⟩
  · intro h
    have hsetup : MarfedKV.setup_db env u =
        (.ok (.error e), [.storageTxBegin, .initializeSchema]) := by
      simp [MarfedKV.setup_db, hdir, hpath, hmarf, hschema, htx, h]
    rw [hsetup]
    exact ⟨rfl, rfl, rfl⟩
  · intro h hc
    have hsetup : MarfedKV.setup_db env u =
        (.ok (.ok m), [.storageTxBegin, .initializeSchema, .storageTxCommit]) := by
      simp [MarfedKV.setup_db, hdir, hpath, hmarf, hschema, htx, h, hc]
    rw [hsetup]
    exact ⟨rfl, rfl⟩
  · intro hu h
    subst hu
    have hmarf0 : env.fromPathResult = .ok m := by simpa using hmarf
    have hsetup : MarfedKV.setup_db env false =
        (.ok (.error e), [.storageTxBegin, .initializeSchema]) := by
      simp [MarfedKV.setup_db, hdir, hpath, hmarf0, hschema, htx, h]
    simp [MarfedKV.openStore, hsetup]

/-- Witness for C7 (amended) at the concrete failing and succeeding
environments. -/
theorem setup_db_schema_init_witness :
    ((MarfedKV.setup_db envInitFail false).1 =
      .ok (.error .InitializeConnFailure) ∧
     ((MarfedKV.setup_db envInitFail false).1).isFatal = false ∧
     (MarfedKV.setup_db envInitFail false).2 =
       [.storageTxBegin, .initializeSchema]) ∧
    ((MarfedKV.setup_db envSchemaAbsent false).1 = .ok (.ok mEmpty) ∧
     (MarfedKV.setup_db envSchemaAbsent false).2 =
       [.storageTxBegin, .initializeSchema, .storageTxCommit]) :=
  ⟨(setup_db_schema_init envInitFail false mEmpty .InitializeConnFailure
      rfl rfl rfl rfl rfl).1 rfl,
   (setup_db_schema_init envSchemaAbsent false mEmpty .InitializeConnFailure
      rfl rfl rfl rfl rfl).2.1 rfl rfl⟩

/-- C8 counterexample: with no recorded height, both the first-ever index
block hash and the all-zero block id yield height 0, and they are distinct
tips, so 0 is not reserved to a single designated sentinel tip; the
all-sentinel block id with no height panics instead of returning 0. -/
theorem height_zero_at_two_distinct_tips :
    ReadOnlyMarfStore.get_current_block_height ⟨zeroBlockId, mEmpty⟩ =
      .ok 0 ∧
    ReadOnlyMarfStore.get_current_block_height
      ⟨firstEverIndexBlockHash, mEmpty⟩ = .ok 0 ∧
    zeroBlockId ≠ firstEverIndexBlockHash ∧
    (ReadOnlyMarfStore.get_current_block_height
      ⟨StacksBlockId.sentinel, mEmpty⟩).isFatal = true := by
  decide

/-- C8 (amended): get_current_block_height on either view returns the
trie-reported height when there is one; when the trie reports no height it
returns 0 exactly when the tip is the first-ever index block hash or the
all-zero block id, and panics for every other tip; a trie error also
panics. -/
theorem get_current_block_height_spec (s : ReadOnlyMarfStore)
    (w : WritableMarfStore) :
    (∀ x, s.marf.get_block_height_of s.chain_tip s.chain_tip = .ok (some x) →
      s.get_current_block_height = .ok x) ∧
    (s.marf.get_block_height_of s.chain_tip s.chain_tip = .ok none →
      ((s.chain_tip = firstEverIndexBlockHash ∨ s.chain_tip = zeroBlockId) →
        s.get_current_block_height = .ok 0) ∧
      (¬(s.chain_tip = firstEverIndexBlockHash ∨ s.chain_tip = zeroBlockId) →
        (s.get_current_block_height).isFatal = true)) ∧
    (∀ e, s.marf.get_block_height_of s.chain_tip s.chain_tip = .error e →
      (s.get_current_block_height).isFatal = true) ∧
    (∀ x, w.marf.get_block_height_of w.chain_tip w.chain_tip = .ok (some x) →
      w.get_current_block_height = .ok x) ∧
    (w.marf.get_block_height_of w.chain_tip w.chain_tip = .ok none →
      ((w.chain_tip = firstEverIndexBlockHash ∨ w.chain_tip = zeroBlockId) →
        w.get_current_block_height = .ok 0) ∧
      (¬(w.chain_tip = firstEverIndexBlockHash ∨ w.chain_tip = zeroBlockId) →
        (w.get_current_block_height).isFatal = true)) ∧
    (∀ e, w.marf.get_block_height_of w.chain_tip w.chain_tip = .error e →
      (w.get_current_block_height).isFatal = true) := by
  refine ⟨?_, ?_, ?_, ?_, ?_, ?_⟩
  · intro x h
    unfold ReadOnlyMarfStore.get_current_block_height
    rw [h]
  · intro h
    constructor
    · intro hc
      unfold ReadOnlyMarfStore.get_current_block_height
      rw [h]
      dsimp
      rw [if_pos hc]
    · intro hc
      unfold ReadOnlyMarfStore.get_current_block_height
      rw [h]
      dsimp
      rw [if_neg hc]
      rfl
  · intro e h
    unfold ReadOnlyMarfStore.get_current_block_height
    rw [h]
    rfl
  · intro x h
    unfold WritableMarfStore.get_current_block_height
    rw [h]
  · intro h
    constructor
    · intro hc
      unfold WritableMarfStore.get_current_block_height
      rw [h]
      dsimp
      rw [if_pos hc]
    · intro hc
      unfold WritableMarfStore.get_current_block_height
      rw [h]
      dsimp
      rw [if_neg hc]
      rfl
  · intro e h
    unfold WritableMarfStore.get_current_block_height
    rw [h]
    rfl

/-- Witness for C8 (amended) at concrete stores covering a reported height,
the zero tip with no height, and a trie error. -/
theorem get_current_block_height_spec_witness :
    ReadOnlyMarfStore.get_current_block_height ⟨⟨4⟩, mHeights⟩ = .ok 7 ∧
    ReadOnlyMarfStore.get_current_block_height ⟨zeroBlockId, mEmpty⟩ =
      .ok 0 ∧
    (ReadOnlyMarfStore.get_current_block_height ⟨⟨6⟩, mHeights⟩).isFatal =
      true ∧
    WritableMarfStore.get_current_block_height ⟨⟨4⟩, txOver mHeights⟩ =
      .ok 7 :=
  ⟨(get_current_block_height_spec ⟨⟨4⟩, mHeights⟩
      ⟨⟨4⟩, txOver mHeights⟩).1 7 (by decide),
   ((get_current_block_height_spec ⟨zeroBlockId, mEmpty⟩
      ⟨⟨4⟩, txOver mHeights⟩).2.1 (by decide)).1 (Or.inr rfl),
   (get_current_block_height_spec ⟨⟨6⟩, mHeights⟩
      ⟨⟨4⟩, txOver mHeights⟩).2.2.1 .CorruptionError (by decide),
   (get_current_block_height_spec ⟨⟨4⟩, mHeights⟩
      ⟨⟨4⟩, txOver mHeights⟩).2.2.2.1 7 (by decide)⟩

/-- C10: open and open_unconfirmed bookmark the sentinel block id as the
chain tip when no miner tip is supplied and exactly the supplied tip
otherwise, and get_chain_tip returns that bookmark until set_chain_tip
replaces it. -/
theorem open_initial_chain_tip (env : DbEnv) (m mu : MARF)
    (t : StacksBlockId)
    (h : (MarfedKV.setup_db env false).1 = .ok (.ok m))
    (hu : (MarfedKV.setup_db env true).1 = .ok (.ok mu)) :
    MarfedKV.openStore env none = .ok (.ok ⟨StacksBlockId.sentinel, m⟩) ∧
    MarfedKV.openStore env (some t) = .ok (.ok ⟨t, m⟩) ∧
    MarfedKV.open_unconfirmed env none =
      .ok (.ok ⟨StacksBlockId.sentinel, mu⟩) ∧
    MarfedKV.open_unconfirmed env (some t) = .ok (.ok ⟨t, mu⟩) ∧
    MarfedKV.get_chain_tip ⟨StacksBlockId.sentinel, m⟩ =
      StacksBlockId.sentinel ∧
    MarfedKV.get_chain_tip ⟨t, m⟩ = t ∧
    MarfedKV.set_chain_tip ⟨StacksBlockId.sentinel, m⟩ t = ⟨t, m⟩ := by
  rcases hsd : MarfedKV.setup_db env false with ⟨p1, p2⟩
  rw [hsd] at h
  dsimp at h
  subst h
  rcases hsdu : MarfedKV.setup_db env true with ⟨q1, q2⟩
  rw [hsdu] at hu
  dsimp at hu
  subst hu
  refine ⟨?_, ?_, ?_, ?_, rfl, rfl, rfl⟩ <;>
    simp [MarfedKV.openStore, MarfedKV.open_unconfirmed, hsd, hsdu]

/-- Witness for C10 at the all-succeeding environment. -/
theorem open_initial_chain_tip_witness :
    MarfedKV.openStore envOk none =
      .ok (.ok ⟨StacksBlockId.sentinel, mEmpty⟩) ∧
    MarfedKV.open_unconfirmed envOk (some ⟨3⟩) = .ok (.ok ⟨⟨3⟩, mEmpty⟩) :=
  ⟨(open_initial_chain_tip envOk mEmpty mEmpty ⟨3⟩ (by decide) (by decide)).1,
   (open_initial_chain_tip envOk mEmpty mEmpty ⟨3⟩
      (by decide) (by decide)).2.2.2.1⟩

/-- C5: put_all processes the pairs in input order: the side store receives
one (hash-hex -> value) put per pair, in input order, and the trie
transaction is extended by exactly the (key -> hash) pairs of the batch in
input order, as one batch insert; nothing else of the view changes. Hash
keys determine their content, so rewriting an existing hash stores identical
content and a put is immediately readable back. -/
theorem put_all_order_and_staging (s : WritableMarfStore)
    (items : List (String × String)) :
    (s.put_all items).marf.staged =
      s.marf.staged ++
        items.map (fun kv => (kv.1, MARFValue.from_value kv.2)) ∧
    (s.put_all items).marf.storage.sideStore =
      putAllSide items s.marf.storage.sideStore ∧
    (s.put_all items).marf.base = s.marf.base ∧
    (s.put_all items).marf.openTip = s.marf.openTip ∧
    (s.put_all items).chain_tip = s.chain_tip ∧
    (s.put_all items).marf.storage.tries = s.marf.storage.tries ∧
    (∀ v1 v2 : String,
      (MARFValue.from_value v1).to_hex = (MARFValue.from_value v2).to_hex →
      v1 = v2) ∧
    (∀ (sd : SideStore) (v : String),
      SqliteConnection.get
        (SqliteConnection.put sd (MARFValue.from_value v).to_hex v)
        ((MARFValue.from_value v).to_hex) = some v) := by
  refine ⟨?_, ?_, ?_, ?_, ?_, ?_, ?_, ?_⟩
  · simp [WritableMarfStore.put_all, put_all_loop_eq,
      MarfTransaction.insert_batch, zip_map_eq]
  · simp [WritableMarfStore.put_all, put_all_loop_eq,
      MarfTransaction.insert_batch]
  · simp [WritableMarfStore.put_all, put_all_loop_eq,
      MarfTransaction.insert_batch]
  · simp [WritableMarfStore.put_all, put_all_loop_eq,
      MarfTransaction.insert_batch]
  · simp [WritableMarfStore.put_all, put_all_loop_eq,
      MarfTransaction.insert_batch]
  · simp [WritableMarfStore.put_all, put_all_loop_eq,
      MarfTransaction.insert_batch]
  · intro v1 v2 h
    simpa [MARFValue.from_value, MARFValue.to_hex] using h
  · intro sd v
    simp [SqliteConnection.get, SqliteConnection.put, alookup]

/-- Witness for C5 at a concrete store and batch, also discharging the
injectivity hypothesis at a concrete value. -/
theorem put_all_order_and_staging_witness :
    (wsEx.put_all [("a", "x"), ("b", "x")]).marf.staged =
      wsEx.marf.staged ++
        [("a", "x"), ("b", "x")].map
          (fun kv => (kv.1, MARFValue.from_value kv.2)) ∧
    "x" = "x" :=
  ⟨(put_all_order_and_staging wsEx [("a", "x"), ("b", "x")]).1,
   (put_all_order_and_staging wsEx
      [("a", "x"), ("b", "x")]).2.2.2.2.2.2.1 "x" "x" rfl⟩

/-- C1: values written through put_all and committed with commit_to are
readable at the final tip: for every key of the batch, get returns the last
value written for that key, on a read view at the final tip and on any write
view whose chain tip is the final tip reading the committed storage. -/
theorem put_all_commit_to_get_roundtrip (ws : WritableMarfStore)
    (items : List (String × String)) (T : StacksBlockId) (k v : String)
    (h : lastValueOf items k = some v) :
    ReadOnlyMarfStore.get ⟨T, ((ws.put_all items).commit_to T).1⟩ k =
      .ok (some v) ∧
    ∀ w2 : WritableMarfStore, w2.chain_tip = T →
      w2.marf.storage = ((ws.put_all items).commit_to T).1 →
      w2.marf.openTip ≠ T →
      w2.get k = .ok (some v) := by
  have h0 : alookup k items.reverse = some v := h
  have hkv : (k, v) ∈ items := List.mem_reverse.mp (alookup_mem h0)
  have hst := put_all_commit_to_storage ws items T
  have htrie : MARF.get ((ws.put_all items).commit_to T).1 T k =
      .ok (some (MARFValue.from_value v)) := by
    rw [hst]
    unfold MARF.get
    dsimp
    rw [show alookup T ((T, applyStaged ws.marf.base (ws.marf.staged ++
          items.map (fun kv => (kv.1, MARFValue.from_value kv.2)))) ::
          ws.marf.storage.tries) =
        some (applyStaged ws.marf.base (ws.marf.staged ++
          items.map (fun kv => (kv.1, MARFValue.from_value kv.2)))) from by
      simp [alookup]]
    dsimp only
    rw [alookup_applyStaged_last _ _ _ _ _ h]
  have hside : SqliteConnection.get
      (((ws.put_all items).commit_to T).1).sideStore
      (MARFValue.from_value v).to_hex = some v := by
    rw [hst]
    dsimp
    unfold SqliteConnection.get
    exact putAllSide_mem _ hkv
  constructor
  · unfold ReadOnlyMarfStore.get
    dsimp
    rw [htrie]
    dsimp
    rw [hside]
  · intro w2 htip hsto hne
    unfold WritableMarfStore.get
    rw [htip]
    unfold MarfTransaction.get
    rw [if_neg (fun hh => hne hh.symm), hsto, htrie]
    dsimp
    rw [hside]

/-- Witness for C1: a two-write batch on a key committed to block 2 reads
back the last value written for that key. -/
theorem put_all_commit_to_get_roundtrip_witness :
    lastValueOf [("k", "a"), ("k", "v")] "k" = some "v" ∧
    ReadOnlyMarfStore.get
      ⟨⟨2⟩, ((wsEx.put_all [("k", "a"), ("k", "v")]).commit_to ⟨2⟩).1⟩ "k" =
      .ok (some "v") :=
  ⟨by decide,
   (put_all_commit_to_get_roundtrip wsEx [("k", "a"), ("k", "v")] ⟨2⟩
      "k" "v" (by decide)).1⟩

end ClarityMarf
